import Mathlib

/-!
Shallow embedding of the sampling / aggregation / classification pipeline of the
ESP8266 environmental-monitor firmware (two near-duplicate sketches, called
`part_001` and `part_000` below), together with proofs about the embedded
operations.

Modelling conventions:
* `float` sensor values are embedded as `ℚ` (decimal literals such as `3.2`
  are exact rationals, matching the real-valued reference behaviour);
  a raw driver reading that may be NaN is embedded as `Option ℚ`
  (`none` = NaN), since in C every comparison with a NaN is false.
* `millis()` timestamps are embedded as `ℕ`; `now - last` uses truncated
  subtraction, which agrees with the unsigned C arithmetic before wrap-around.
* The fixed-size C arrays of the history buffer are embedded as lists of
  length `HISTORY_SIZE`, written to with `List.set`.
* Only `dew_point` / `heat_index` are embedded over `ℝ` because the Magnus
  formula uses a transcendental `log`; every proof about them is structural.
-/

namespace EnvMonitor

/-! ## Configuration constants (part_001 `#define`s, identical in part_000) -/

def HISTORY_SIZE : Nat := 60

def BATTERY_MIN_VOLTAGE : ℚ := 3.0

def BATTERY_MAX_VOLTAGE : ℚ := 4.2

def BATTERY_CRITICAL_VOLTAGE : ℚ := 3.2

def BATTERY_LOW_VOLTAGE : ℚ := 3.4

/-- Trend re-evaluation interval in milliseconds (`3600000` in both sketches). -/
def TREND_INTERVAL_MS : Nat := 3600000

/-! ## Enumerations (part_001) -/

inductive PowerProfile
  | performance
  | balanced
  | ultraLowPower
deriving DecidableEq, Repr

inductive HealthState
  | normal
  | degraded
  | critical
deriving DecidableEq, Repr

inductive WeatherTrend
  | stable
  | rising
  | falling
deriving DecidableEq, Repr

/-- Arduino `constrain(x, lo, hi)`. -/
def constrain (x lo hi : ℚ) : ℚ :=
  if x < lo then lo else if x > hi then hi else x

/-! ## Data structures (part_001 `SensorData` / `SystemState`) -/

structure SensorData where
  temperature : ℚ
  humidity : ℚ
  pressure : ℚ
  altitude : ℚ
  battery_voltage : ℚ
  battery_percent : ℚ
  dht_valid : Bool
  bmp_valid : Bool
  free_heap : Nat
  cpu_load : ℚ
  wifi_rssi : ℤ
  wifi_quality : ℤ
  health : HealthState
deriving DecidableEq, Repr

/-- The part of part_001's `SystemState` touched by the operations modelled
here (`currentProfile`, `oledEnabled`). -/
structure SystemState where
  currentProfile : PowerProfile
  oledEnabled : Bool
deriving DecidableEq, Repr

/-- part_001 `applyPowerProfile` (the `lastProfileChange` timestamp and the
serial print are irrelevant side channels). -/
def applyPowerProfile (st : SystemState) (profile : PowerProfile) : SystemState :=
  { st with currentProfile := profile }

/-! ## part_001 `updateSystemHealth` -/

/-- The `newHealth` classification computed by part_001 `updateSystemHealth`
(lines 828-845): critical if `!bmp_valid || battery < 3.2 || heap < 5000`,
else degraded if `!dht_valid || wifi_quality < 30 || battery < 3.4 ||
heap < 10000 || cpu_load > 80`, else normal. -/
def updateSystemHealthClassify (s : SensorData) : HealthState :=
  if s.bmp_valid = false ∨ s.battery_voltage < BATTERY_CRITICAL_VOLTAGE ∨
      s.free_heap < 5000 then
    HealthState.critical
  else if s.dht_valid = false ∨ s.wifi_quality < 30 ∨
      s.battery_voltage < BATTERY_LOW_VOLTAGE ∨ s.free_heap < 10000 ∨
      s.cpu_load > 80 then
    HealthState.degraded
  else
    HealthState.normal

/-- part_001 `updateSystemHealth`: writes the classification into
`sensorData.health`, then switches to ultra-low-power via
`applyPowerProfile` when `battery_voltage < BATTERY_CRITICAL_VOLTAGE` and the
profile is not already `PROFILE_ULTRA_LOW_POWER`. -/
def updateSystemHealth (s : SensorData) (st : SystemState) :
    SensorData × SystemState :=
  let s' := { s with health := updateSystemHealthClassify s }
  if s.battery_voltage < BATTERY_CRITICAL_VOLTAGE ∧
      st.currentProfile ≠ PowerProfile.ultraLowPower then
    (s', applyPowerProfile st PowerProfile.ultraLowPower)
  else
    (s', st)

/-- Folding the health/stats tick over a sequence of sensor snapshots:
the profile evolution produced by repeated `updateSystemHealth` calls. -/
def healthTicks (snaps : List SensorData) (st : SystemState) : SystemState :=
  snaps.foldl (fun st s => (updateSystemHealth s st).2) st

/-! ## part_001 `calculateBatteryPercent` -/

/-- part_001 `calculateBatteryPercent` (lines 890-896). -/
def calculateBatteryPercent (voltage : ℚ) : ℚ :=
  if voltage ≥ BATTERY_MAX_VOLTAGE then 100
  else if voltage ≤ BATTERY_MIN_VOLTAGE then 0
  else
    let percent :=
      ((voltage - BATTERY_MIN_VOLTAGE) /
        (BATTERY_MAX_VOLTAGE - BATTERY_MIN_VOLTAGE)) * 100
    constrain percent 0 100

/-! ## WiFi quality (part_001 `updateSystemStats`, part_000 `readSystemStats`) -/

/-- The WiFi part of `updateSystemStats`: given connection status and the
driver RSSI, returns the stored `(wifi_rssi, wifi_quality)` pair.
Disconnected forces RSSI to `-100` and quality to `0`. -/
def updateSystemStatsWifi (connected : Bool) (rssi : ℤ) : ℤ × ℤ :=
  if connected then
    (rssi,
      if rssi ≥ -50 then 100
      else if rssi ≤ -100 then 0
      else 2 * (rssi + 100))
  else
    (-100, 0)

/-! ## Sensor reads (part_001 `readDHT`, `readBMP`) -/

/-- part_001 `readDHT` (lines 746-755). The raw driver humidity is
`Option ℚ` (`none` = NaN; in C all comparisons with NaN are false, so
`!isnan(h) && h >= 0 && h <= 100` holds exactly on `some` values in range). -/
def readDHT (s : SensorData) (h : Option ℚ) : SensorData :=
  match h with
  | some hv =>
    if 0 ≤ hv ∧ hv ≤ 100 then { s with humidity := hv, dht_valid := true }
    else { s with dht_valid := false }
  | none => { s with dht_valid := false }

/-- part_001 `readBMP` (lines 757-774). Early-returns when `bmp_valid` is
false; otherwise updates each channel only when its reading is non-NaN and in
the plausibility range; `bmp_valid` itself is never written. The raw pressure
is an `int32` in Pa. -/
def readBMP (s : SensorData) (temp : Option ℚ) (pressurePa : ℤ)
    (altitude : Option ℚ) : SensorData :=
  if s.bmp_valid = false then s
  else
    let pressureHpa : ℚ := (pressurePa : ℚ) / 100
    let s1 :=
      match temp with
      | some t => if -40 < t ∧ t < 85 then { s with temperature := t } else s
      | none => s
    let s2 :=
      if 0 < pressurePa ∧ 300 < pressureHpa ∧ pressureHpa < 1100 then
        { s1 with pressure := pressureHpa }
      else s1
    match altitude with
    | some a => if -500 < a ∧ a < 9000 then { s2 with altitude := a } else s2
    | none => s2

/-! ## Weather trend (part_001 `updateWeatherTrend`) -/

/-- The state of part_001 `updateWeatherTrend`: the two function-static
variables plus the `sensorData` trend fields it writes. -/
structure TrendState where
  lastPressure : ℚ
  lastTrendUpdate : Nat
  trend : WeatherTrend
  pressure_rate : ℚ
deriving DecidableEq, Repr

/-- Statics are zero-initialised; `setup()` sets `trend = TREND_STABLE` and
`pressure_rate = 0`. -/
def initTrendState : TrendState :=
  ⟨0, 0, WeatherTrend.stable, 0⟩

/-- part_001 `updateWeatherTrend` (lines 855-876), as a function of the
current state, the current `sensorData.pressure` and `now = millis()`. -/
def updateWeatherTrend (ts : TrendState) (pressure : ℚ) (now : Nat) :
    TrendState :=
  if TREND_INTERVAL_MS ≤ now - ts.lastTrendUpdate then
    let ts1 :=
      if 0 < ts.lastPressure then
        let pressureChange := pressure - ts.lastPressure
        { ts with
          pressure_rate := pressureChange
          trend :=
            if pressureChange > 0.5 then WeatherTrend.rising
            else if pressureChange < -0.5 then WeatherTrend.falling
            else WeatherTrend.stable }
      else ts
    { ts1 with lastPressure := pressure, lastTrendUpdate := now }
  else ts

/-! ## part_000: advanced metrics and its weather trend
(`calculateAdvancedMetrics`, `readDHT11`, `handleData`) -/

/-- The part_000 `sensorData` fields read and written by
`calculateAdvancedMetrics` and `readDHT11`, plus the two function-static
variables of the trend block (`lastPressure`, `lastTrendCheck`).
part_000 stores the trend as a `String`. -/
structure AdvMetrics where
  temperature : ℚ
  temperature_dht : ℚ
  humidity : ℚ
  dht_valid : Bool
  dew_point : ℝ
  heat_index : ℝ
  pressure : ℚ
  pressure_rate : ℚ
  weather_trend : String
  lastPressure : ℚ
  lastTrendCheck : Nat

/-- Magnus dew point exactly as in part_000 `calculateAdvancedMetrics`
(lines 702-710): `α = (a·T)/(b+T) + ln(RH/100)`, `dewPoint = b·α/(a−α)`,
`a = 17.27`, `b = 237.7`. Uses `Real.log` for the C `log`. -/
noncomputable def magnusDewPoint (T RH : ℚ) : ℝ :=
  let a : ℝ := 17.27
  let b : ℝ := 237.7
  let alpha : ℝ := (a * (T : ℝ)) / (b + (T : ℝ)) + Real.log ((RH : ℝ) / 100)
  (b * alpha) / (a - alpha)

/-- Rothfusz heat-index polynomial exactly as in part_000
`calculateAdvancedMetrics` (lines 713-723). -/
noncomputable def rothfuszHeatIndex (T RH : ℚ) : ℝ :=
  -8.78469475556 + 1.61139411 * (T : ℝ) + 2.33854883889 * (RH : ℝ) -
    0.14611605 * (T : ℝ) * (RH : ℝ) - 0.012308094 * (T : ℝ) * (T : ℝ) -
    0.0164248277778 * (RH : ℝ) * (RH : ℝ) +
    0.002211732 * (T : ℝ) * (T : ℝ) * (RH : ℝ) +
    0.00072546 * (T : ℝ) * (RH : ℝ) * (RH : ℝ) -
    0.000003582 * (T : ℝ) * (T : ℝ) * (RH : ℝ) * (RH : ℝ)

/-- part_000 `readDHT11` (lines 620-634): validates humidity into
`humidity` / `dht_valid`, and the DHT temperature into `temperature_dht`
(without any validity flag). Raw readings are `Option ℚ` (`none` = NaN). -/
def readDHT11 (s : AdvMetrics) (h t : Option ℚ) : AdvMetrics :=
  let s1 :=
    match h with
    | some hv =>
      if 0 ≤ hv ∧ hv ≤ 100 then { s with humidity := hv, dht_valid := true }
      else { s with dht_valid := false }
    | none => { s with dht_valid := false }
  match t with
  | some tv => if -40 < tv ∧ tv < 80 then { s1 with temperature_dht := tv } else s1
  | none => s1

/-- part_000 `calculateAdvancedMetrics` (lines 702-749): dew point and heat
index only when `dht_valid`; then the hourly trend block gated on
`lastPressure > 0 && now - lastTrendCheck >= 3600000`; finally
`lastPressure` is initialised (and the trend set to `STABLE`) only while
`lastPressure == 0`. -/
noncomputable def calculateAdvancedMetrics (s : AdvMetrics) (now : Nat) :
    AdvMetrics :=
  let s1 :=
    if s.dht_valid then
      { s with
        dew_point := magnusDewPoint s.temperature s.humidity
        heat_index :=
          if 27 ≤ s.temperature then rothfuszHeatIndex s.temperature s.humidity
          else (s.temperature : ℝ) }
    else s
  let s2 :=
    if 0 < s1.lastPressure ∧ TREND_INTERVAL_MS ≤ now - s1.lastTrendCheck then
      let rate := s1.pressure - s1.lastPressure
      { s1 with
        pressure_rate := rate
        weather_trend :=
          if rate > 0.5 then "RISING"
          else if rate < -0.5 then "FALLING"
          else "STABLE"
        lastTrendCheck := now }
    else s1
  if s2.lastPressure = 0 then
    { s2 with lastPressure := s2.pressure, weather_trend := "STABLE" }
  else s2

/-- The derived-metrics fields that part_000 `handleData` (lines 466-467)
serialises into its JSON response unconditionally
(`"dew_point": ...`, `"heat_index": ...`). -/
structure ExposedDerived where
  dew_point : ℝ
  heat_index : ℝ

/-- Projection of the snapshot onto the two JSON fields of `handleData`
relevant here. -/
def handleDataDerived (s : AdvMetrics) : ExposedDerived :=
  ⟨s.dew_point, s.heat_index⟩

/-! ## Control endpoints (part_001 `handleControl`, part_000
`handleSetProfile`) -/

/-- `pat` occurs at the head of `s` (helper for Arduino `String.indexOf`). -/
def startsWithChars : List Char → List Char → Bool
  | [], _ => true
  | _ :: _, [] => false
  | p :: ps, c :: cs => decide (p = c) && startsWithChars ps cs

/-- Arduino `String.indexOf(pat)`: index of the first occurrence of `pat`,
`none` for the C return value `-1`. -/
def indexOfChars (pat : List Char) : List Char → Option Nat
  | [] => if startsWithChars pat [] then some 0 else none
  | c :: t =>
    if startsWithChars pat (c :: t) then some 0
    else (indexOfChars pat t).map (fun n => n + 1)

/-- `body.substring(pos, pos + 1).toInt()` of part_001 `handleControl`:
the one-character substring (possibly empty at the end of the body) parsed by
`toInt`/`atol` — the digit value for a digit character, otherwise `0`. -/
def valueCharToInt (cs : List Char) (pos : Nat) : Int :=
  match (cs.drop pos).take 1 with
  | [c] => if c.isDigit then ((c.toNat - 48 : Nat) : Int) else 0
  | _ => 0

/-- The C cast `(PowerProfile)profile`, used only under the guard
`0 <= profile && profile <= 2`. -/
def powerProfileOfInt (n : Int) : PowerProfile :=
  if n = 0 then PowerProfile.performance
  else if n = 1 then PowerProfile.balanced
  else PowerProfile.ultraLowPower

/-- part_001 `handleControl` (lines 664-692): the request body is
`none` when the `plain` argument is missing. Returns the new system state,
the HTTP status code and the response text. -/
def handleControl (st : SystemState) (body : Option String) :
    SystemState × Nat × String :=
  match body with
  | none => (st, 400, "Bad Request")
  | some b =>
    let cs := b.data
    if (indexOfChars ("\"action\":\"profile\"".data) cs).isSome then
      match indexOfChars ("\"value\":".data) cs with
      | some valuePos =>
        let profile := valueCharToInt cs (valuePos + 8)
        if 0 ≤ profile ∧ profile ≤ 2 then
          (applyPowerProfile st (powerProfileOfInt profile), 200,
            "Profile changed")
        else (st, 400, "Unknown action")
      | none => (st, 400, "Unknown action")
    else if (indexOfChars ("\"action\":\"oled_toggle\"".data) cs).isSome then
      let st' := { st with oledEnabled := !st.oledEnabled }
      (st', 200, if st'.oledEnabled then "OLED ON" else "OLED OFF")
    else (st, 400, "Unknown action")

/-- The part_000 `systemState` fields touched by `handleSetProfile`. -/
structure SystemState000 where
  currentProfile : String
  refreshRate : Nat
  oledEnabled : Bool
deriving DecidableEq, Repr

/-- part_000 `handleSetProfile` (lines 383-406): the profile argument string
is stored into `currentProfile` unconditionally before the name is matched;
only the three recognised names adjust `refreshRate` (and, for
`Ultra Low Power`, force the OLED off — the `if (oledEnabled)` guard and the
display clear have the same net state effect). -/
def handleSetProfile (st : SystemState000) (arg : Option String) :
    SystemState000 × Nat × String :=
  match arg with
  | some p =>
    let st1 := { st with currentProfile := p }
    let st2 :=
      if p = "Performance" then { st1 with refreshRate := 500 }
      else if p = "Balanced" then { st1 with refreshRate := 2000 }
      else if p = "Ultra Low Power" then
        { st1 with refreshRate := 10000, oledEnabled := false }
      else st1
    (st2, 200, "Profile set to: " ++ p)
  | none => (st, 400, "Missing profile argument")

/-! ## History ring buffer (part_001 `updateHistory` / `handleHistory`;
part_000's versions are identical modulo extra channels) -/

/-- part_001 `HistoryBuffer`: three fixed-size channel arrays (embedded as
lists of length `HISTORY_SIZE`), the write cursor and the `full` flag. -/
structure HistoryBuffer where
  temperature : List ℚ
  pressure : List ℚ
  battery : List ℚ
  index : Nat
  full : Bool
deriving DecidableEq, Repr

/-- `setup()` initialisation: `index = 0`, `full = false`; the global C
arrays are zero-initialised. -/
def initHistory : HistoryBuffer :=
  ⟨List.replicate HISTORY_SIZE 0, List.replicate HISTORY_SIZE 0,
    List.replicate HISTORY_SIZE 0, 0, false⟩

/-- part_001 `updateHistory` (lines 878-888): write each channel at the
cursor, increment, and on reaching `HISTORY_SIZE` reset the cursor to 0 and
latch `full`. -/
def updateHistory (h : HistoryBuffer) (t p b : ℚ) : HistoryBuffer :=
  let temperature := h.temperature.set h.index t
  let pressure := h.pressure.set h.index p
  let battery := h.battery.set h.index b
  let i := h.index + 1
  if HISTORY_SIZE ≤ i then
    ⟨temperature, pressure, battery, 0, true⟩
  else
    ⟨temperature, pressure, battery, i, h.full⟩

/-- `int count = history.full ? HISTORY_SIZE : history.index;` of
`handleHistory`. -/
def historyCount (h : HistoryBuffer) : Nat :=
  if h.full then HISTORY_SIZE else h.index

/-- One channel array of the `handleHistory` JSON response (lines 633-662):
the loop emits `arr[0] .. arr[count-1]` in index order. -/
def channelSnapshot (h : HistoryBuffer) (arr : List ℚ) : List ℚ :=
  (List.range (historyCount h)).map (fun i => arr.getD i 0)

/-- Modelled from the spec: `snapshot() -> ordered sequence, oldest-first` —
"if not full, returns `[0, cursor)` as-is; if full, returns the buffer read
starting at cursor (oldest) wrapping around to cursor−1 (newest)". Stated
for comparison with `channelSnapshot`, the snapshot the code actually
returns. -/
def specSnapshotOldestFirst (h : HistoryBuffer) (arr : List ℚ) : List ℚ :=
  if h.full then arr.rotate h.index else arr.take h.index

/-- Appending a sequence of samples
(`(temperature, pressure, battery_voltage)` triples) starting from the
initial buffer. -/
def appendAll (vs : List (ℚ × ℚ × ℚ)) : HistoryBuffer :=
  vs.foldl (fun h v => updateHistory h v.1 v.2.1 v.2.2) initHistory

lemma appendAll_snoc (vs : List (ℚ × ℚ × ℚ)) (v : ℚ × ℚ × ℚ) :
    appendAll (vs ++ [v]) = updateHistory (appendAll vs) v.1 v.2.1 v.2.2 := by
  unfold appendAll
  rw [List.foldl_append]
  rfl

/-- Field equations of one `updateHistory` step for a cursor inside the
buffer. -/
lemma updateHistory_fields (h : HistoryBuffer) (t p b : ℚ)
    (hidx : h.index < HISTORY_SIZE) :
    (updateHistory h t p b).temperature = h.temperature.set h.index t ∧
    (updateHistory h t p b).pressure = h.pressure.set h.index p ∧
    (updateHistory h t p b).battery = h.battery.set h.index b ∧
    (updateHistory h t p b).index = (h.index + 1) % HISTORY_SIZE ∧
    (updateHistory h t p b).full =
      (h.full || decide (HISTORY_SIZE ≤ h.index + 1)) := by
  unfold updateHistory
  dsimp only
  split_ifs with hif
  · refine ⟨rfl, rfl, rfl, ?_, ?_⟩
    · have he : h.index + 1 = HISTORY_SIZE := by omega
      simp [he]
    · simp [hif]
  · refine ⟨rfl, rfl, rfl, ?_, ?_⟩
    · rw [Nat.mod_eq_of_lt (by omega)]
    · simp [hif]

/-- Reading the first `n` cells of an array by index equals `take n`. -/
lemma getD_map_range_eq_take (arr : List ℚ) (n : Nat) (hn : n ≤ arr.length) :
    (List.range n).map (fun i => arr.getD i 0) = arr.take n := by
  induction n with
  | zero => simp
  | succ m ih =>
    rw [List.range_succ, List.map_append, ih (by omega)]
    have hm : m < arr.length := by omega
    rw [List.take_succ, List.getElem?_eq_getElem hm]
    simp [List.getD_eq_getElem?_getD, List.getElem?_eq_getElem hm]

/-- Writing at the first free cell extends the initialised prefix. -/
lemma set_append_replicate_head (xs : List ℚ) (m : Nat) (v : ℚ)
    (hm : 0 < m) :
    (xs ++ List.replicate m 0).set xs.length v =
      (xs ++ [v]) ++ List.replicate (m - 1) 0 := by
  rw [List.set_append_right _ _ (Nat.le_refl _), Nat.sub_self]
  rcases m with _ | k
  · omega
  · simp [List.replicate_succ, List.append_assoc]

/-- Overwriting the cell at the rotation point and advancing the rotation by
one drops the oldest element and appends the new one. -/
lemma rotate_set_succ (B : List ℚ) (c : Nat) (v : ℚ) (hc : c < B.length) :
    (B.set c v).rotate ((c + 1) % B.length) = (B.rotate c).drop 1 ++ [v] := by
  have hrot : B.rotate c = B.drop c ++ B.take c :=
    List.rotate_eq_drop_append_take (le_of_lt hc)
  have hdlen : (B.drop c).length = B.length - c := List.length_drop ..
  have htlen : (B.take c).length = c := by
    simp [List.length_take, Nat.min_eq_left (le_of_lt hc)]
  have h2 : (B.set c v).take (c + 1) = B.take c ++ [v] := by
    rw [List.set_take, List.take_succ, List.getElem?_eq_getElem hc]
    rw [List.set_append_right _ _ (by omega)]
    simp [htlen]
  rcases Nat.lt_or_ge (c + 1) B.length with h | h
  · have hmod : (c + 1) % B.length = c + 1 := Nat.mod_eq_of_lt h
    rw [hmod, List.rotate_eq_drop_append_take (by simp; omega)]
    have h1 : (B.set c v).drop (c + 1) = B.drop (c + 1) := by
      rw [List.drop_set, if_pos (by omega)]
    rw [h1, h2, hrot, List.drop_append_of_le_length (by omega),
      List.drop_drop]
    simp [List.append_assoc]
  · have hce : c + 1 = B.length := by omega
    have hmod : (c + 1) % B.length = 0 := by rw [hce, Nat.mod_self]
    have hnil : B.drop (c + 1) = [] := List.drop_eq_nil_of_le (by omega)
    rw [hmod, List.rotate_zero, List.set_eq_take_cons_drop v hc, hnil,
      hrot, List.drop_append_of_le_length (by omega), List.drop_drop, hnil]
    simp

set_option maxHeartbeats 1000000 in
/-- Full characterization of the buffer after appending a sequence `vs`:
channel lengths stay `HISTORY_SIZE`; the cursor is `vs.length` modulo
`HISTORY_SIZE`; `full` holds exactly when at least `HISTORY_SIZE` samples
were appended; while at most `HISTORY_SIZE` samples were appended each
channel is the appended prefix (padded with zeros); once at least
`HISTORY_SIZE` were appended, rotating each channel at the cursor yields the
last `HISTORY_SIZE` appended values in chronological order. -/
lemma appendAll_char (vs : List (ℚ × ℚ × ℚ)) :
    (appendAll vs).temperature.length = HISTORY_SIZE ∧
    (appendAll vs).pressure.length = HISTORY_SIZE ∧
    (appendAll vs).battery.length = HISTORY_SIZE ∧
    (appendAll vs).index = vs.length % HISTORY_SIZE ∧
    ((appendAll vs).full = true ↔ HISTORY_SIZE ≤ vs.length) ∧
    (vs.length ≤ HISTORY_SIZE →
      (appendAll vs).temperature =
        vs.map (fun v => v.1) ++ List.replicate (HISTORY_SIZE - vs.length) 0 ∧
      (appendAll vs).pressure =
        vs.map (fun v => v.2.1) ++
          List.replicate (HISTORY_SIZE - vs.length) 0 ∧
      (appendAll vs).battery =
        vs.map (fun v => v.2.2) ++
          List.replicate (HISTORY_SIZE - vs.length) 0) ∧
    (HISTORY_SIZE ≤ vs.length →
      (appendAll vs).temperature.rotate ((appendAll vs).index) =
        (vs.map (fun v => v.1)).drop (vs.length - HISTORY_SIZE) ∧
      (appendAll vs).pressure.rotate ((appendAll vs).index) =
        (vs.map (fun v => v.2.1)).drop (vs.length - HISTORY_SIZE) ∧
      (appendAll vs).battery.rotate ((appendAll vs).index) =
        (vs.map (fun v => v.2.2)).drop (vs.length - HISTORY_SIZE)) := by
  have hH : HISTORY_SIZE = 60 := rfl
  simp only [hH]
  induction vs using List.reverseRecOn with
  | nil =>
    refine ⟨by simp [appendAll, initHistory, hH],
      by simp [appendAll, initHistory, hH],
      by simp [appendAll, initHistory, hH],
      by simp [appendAll, initHistory],
      by simp [appendAll, initHistory], ?_, by intro hc; simp at hc⟩
    intro _
    simp [appendAll, initHistory, hH]
  | append_singleton l v ih =>
    obtain ⟨hlt, hlp, hlb, hidx, hfull, hpre, hrot⟩ := ih
    have hidxlt : (appendAll l).index < 60 := by
      rw [hidx]; omega
    obtain ⟨ft, fp, fb, fi, ff⟩ :=
      updateHistory_fields (appendAll l) v.1 v.2.1 v.2.2 (by rw [hH]; exact hidxlt)
    rw [hH] at fi ff
    rw [appendAll_snoc]
    have hlen1 : (l ++ [v]).length = l.length + 1 := by simp
    have hmapt : (l ++ [v]).map (fun v => v.1) =
        l.map (fun v => v.1) ++ [v.1] := by simp
    have hmapp : (l ++ [v]).map (fun v => v.2.1) =
        l.map (fun v => v.2.1) ++ [v.2.1] := by simp
    have hmapb : (l ++ [v]).map (fun v => v.2.2) =
        l.map (fun v => v.2.2) ++ [v.2.2] := by simp
    have hmtlen : (l.map (fun v => v.1)).length = l.length := by simp
    have hmplen : (l.map (fun v => v.2.1)).length = l.length := by simp
    have hmblen : (l.map (fun v => v.2.2)).length = l.length := by simp
    refine ⟨by rw [ft]; simp [hlt], by rw [fp]; simp [hlp],
      by rw [fb]; simp [hlb], ?_, ?_, ?_, ?_⟩
    · rw [fi, hidx, hlen1]
      omega
    · rw [ff, hlen1, hidx]
      simp only [Bool.or_eq_true, decide_eq_true_eq, hfull]
      omega
    · -- prefix case: l.length + 1 ≤ 60
      intro hle1
      rw [hlen1] at hle1
      have hle : l.length ≤ 60 := by omega
      have hlt60 : l.length < 60 := by omega
      obtain ⟨hptemp, hppress, hpbat⟩ := hpre hle
      have hidx' : (appendAll l).index = l.length := by
        rw [hidx, Nat.mod_eq_of_lt hlt60]
      refine ⟨?_, ?_, ?_⟩
      · rw [ft, hptemp, hidx', hlen1, hmapt,
          show 60 - (l.length + 1) = (60 - l.length) - 1 by omega,
          show l.length = (l.map (fun v => v.1)).length from hmtlen.symm,
          set_append_replicate_head _ _ _ (by rw [hmtlen]; omega), hmtlen]
      · rw [fp, hppress, hidx', hlen1, hmapp,
          show 60 - (l.length + 1) = (60 - l.length) - 1 by omega,
          show l.length = (l.map (fun v => v.2.1)).length from hmplen.symm,
          set_append_replicate_head _ _ _ (by rw [hmplen]; omega), hmplen]
      · rw [fb, hpbat, hidx', hlen1, hmapb,
          show 60 - (l.length + 1) = (60 - l.length) - 1 by omega,
          show l.length = (l.map (fun v => v.2.2)).length from hmblen.symm,
          set_append_replicate_head _ _ _ (by rw [hmblen]; omega), hmblen]
    · -- rotate case: 60 ≤ l.length + 1
      intro hge1
      rw [hlen1] at hge1
      rcases Nat.lt_or_ge l.length 60 with hlt60 | hge60
      · -- transition: l.length + 1 = 60 exactly
        obtain ⟨hptemp, hppress, hpbat⟩ := hpre (by omega)
        have hidx' : (appendAll l).index = l.length := by
          rw [hidx, Nat.mod_eq_of_lt hlt60]
        have hrep1 : 60 - l.length = 1 := by omega
        have hi0 : (updateHistory (appendAll l) v.1 v.2.1 v.2.2).index = 0 := by
          rw [fi, hidx']
          omega
        rw [hi0, hlen1, show l.length + 1 - 60 = 0 by omega]
        refine ⟨?_, ?_, ?_⟩
        · rw [ft, hptemp, hidx', hrep1,
            show l.length = (l.map (fun v => v.1)).length from hmtlen.symm,
            set_append_replicate_head _ _ _ (by norm_num), List.rotate_zero]
          simp [hmapt]
        · rw [fp, hppress, hidx', hrep1,
            show l.length = (l.map (fun v => v.2.1)).length from hmplen.symm,
            set_append_replicate_head _ _ _ (by norm_num), List.rotate_zero]
          simp [hmapp]
        · rw [fb, hpbat, hidx', hrep1,
            show l.length = (l.map (fun v => v.2.2)).length from hmblen.symm,
            set_append_replicate_head _ _ _ (by norm_num), List.rotate_zero]
          simp [hmapb]
      · -- already full before this append
        obtain ⟨hrt, hrp, hrb⟩ := hrot hge60
        have hc : (appendAll l).index < (appendAll l).temperature.length := by
          rw [hlt]; exact hidxlt
        have hcp : (appendAll l).index < (appendAll l).pressure.length := by
          rw [hlp]; exact hidxlt
        have hcb : (appendAll l).index < (appendAll l).battery.length := by
          rw [hlb]; exact hidxlt
        rw [fi, hlen1]
        have hmodt : ((appendAll l).index + 1) % 60 =
            ((appendAll l).index + 1) % (appendAll l).temperature.length := by
          rw [hlt]
        have hmodp : ((appendAll l).index + 1) % 60 =
            ((appendAll l).index + 1) % (appendAll l).pressure.length := by
          rw [hlp]
        have hmodb : ((appendAll l).index + 1) % 60 =
            ((appendAll l).index + 1) % (appendAll l).battery.length := by
          rw [hlb]
        have hdlt : l.length + 1 - 60 ≤ (l.map (fun v => v.1)).length := by
          rw [hmtlen]; omega
        have hdlp : l.length + 1 - 60 ≤ (l.map (fun v => v.2.1)).length := by
          rw [hmplen]; omega
        have hdlb : l.length + 1 - 60 ≤ (l.map (fun v => v.2.2)).length := by
          rw [hmblen]; omega
        have harith : l.length - 60 + 1 = l.length + 1 - 60 := by omega
        refine ⟨?_, ?_, ?_⟩
        · rw [ft, hmodt, rotate_set_succ _ _ _ hc, hrt, hmapt]
          rw [List.drop_drop]
          rw [List.drop_append_of_le_length hdlt]
          rw [harith]
        · rw [fp, hmodp, rotate_set_succ _ _ _ hcp, hrp, hmapp]
          rw [List.drop_drop]
          rw [List.drop_append_of_le_length hdlp]
          rw [harith]
        · rw [fb, hmodb, rotate_set_succ _ _ _ hcb, hrb, hmapb]
          rw [List.drop_drop]
          rw [List.drop_append_of_le_length hdlb]
          rw [harith]

/-! # Claims -/

/-- Claim C2: the health classification is exactly the stated
critical / degraded / normal case split, and it is a pure function of the
declared inputs (validity flags, battery voltage, WiFi quality, free memory,
CPU load): two snapshots agreeing on those classify identically regardless of
any other field. -/
theorem claim_C2 (s : SensorData) :
    (updateSystemHealthClassify s = HealthState.critical ↔
      (s.bmp_valid = false ∨ s.battery_voltage < BATTERY_CRITICAL_VOLTAGE ∨
        s.free_heap < 5000)) ∧
    (updateSystemHealthClassify s = HealthState.degraded ↔
      (¬ (s.bmp_valid = false ∨ s.battery_voltage < BATTERY_CRITICAL_VOLTAGE ∨
          s.free_heap < 5000) ∧
        (s.dht_valid = false ∨ s.wifi_quality < 30 ∨
          s.battery_voltage < BATTERY_LOW_VOLTAGE ∨ s.free_heap < 10000 ∨
          s.cpu_load > 80))) ∧
    (updateSystemHealthClassify s = HealthState.normal ↔
      (¬ (s.bmp_valid = false ∨ s.battery_voltage < BATTERY_CRITICAL_VOLTAGE ∨
          s.free_heap < 5000) ∧
        ¬ (s.dht_valid = false ∨ s.wifi_quality < 30 ∨
          s.battery_voltage < BATTERY_LOW_VOLTAGE ∨ s.free_heap < 10000 ∨
          s.cpu_load > 80))) ∧
    (∀ s' : SensorData,
      s.bmp_valid = s'.bmp_valid → s.dht_valid = s'.dht_valid →
      s.battery_voltage = s'.battery_voltage →
      s.wifi_quality = s'.wifi_quality → s.free_heap = s'.free_heap →
      s.cpu_load = s'.cpu_load →
      updateSystemHealthClassify s = updateSystemHealthClassify s') := by
  refine ⟨?_, ?_, ?_, ?_⟩
  · unfold updateSystemHealthClassify
    split_ifs <;> simp_all
  · unfold updateSystemHealthClassify
    split_ifs <;> simp_all
  · unfold updateSystemHealthClassify
    split_ifs <;> simp_all
  · intro s' h1 h2 h3 h4 h5 h6
    unfold updateSystemHealthClassify
    rw [h1, h2, h3, h4, h5, h6]

/-- Witness for C2: two concrete snapshots that differ only in temperature and
pressure classify identically (both are degraded via low WiFi quality). -/
theorem claim_C2_witness :
    updateSystemHealthClassify
      ⟨21, 50, 1013, 20, 3.6, 50, true, true, 30000, 10, -80, 20,
        HealthState.normal⟩ =
    updateSystemHealthClassify
      ⟨35, 50, 990, 20, 3.6, 50, true, true, 30000, 10, -80, 20,
        HealthState.normal⟩ :=
  (claim_C2 _).2.2.2
    ⟨35, 50, 990, 20, 3.6, 50, true, true, 30000, 10, -80, 20,
      HealthState.normal⟩ rfl rfl rfl rfl rfl rfl

/-- The linear interpolation expression of `calculateBatteryPercent`,
division eliminated. -/
lemma batteryPercent_linear (v : ℚ) :
    ((v - BATTERY_MIN_VOLTAGE) /
      (BATTERY_MAX_VOLTAGE - BATTERY_MIN_VOLTAGE)) * 100 =
    (v - 3) * (250 / 3) := by
  unfold BATTERY_MIN_VOLTAGE BATTERY_MAX_VOLTAGE
  ring

/-- Case characterization of `calculateBatteryPercent`: the trailing
`constrain` never clamps because the linear value already lies in `(0, 100)`
strictly between the voltage bounds. -/
lemma calculateBatteryPercent_eq (v : ℚ) :
    calculateBatteryPercent v =
      if BATTERY_MAX_VOLTAGE ≤ v then 100
      else if v ≤ BATTERY_MIN_VOLTAGE then 0
      else (v - 3) * (250 / 3) := by
  unfold calculateBatteryPercent constrain
  dsimp only
  rw [batteryPercent_linear]
  simp only [ge_iff_le]
  unfold BATTERY_MIN_VOLTAGE BATTERY_MAX_VOLTAGE
  split_ifs with h1 h2 h3 h4 <;> first | rfl | (exfalso; linarith)

/-- Claim C8: `calculateBatteryPercent` is monotone non-decreasing, clamped to
`[0, 100]`, equals `0` at or below the minimum voltage (3.0 V), equals `100`
at or above the maximum voltage (4.2 V), and interpolates linearly
in between. -/
theorem claim_C8 (v w : ℚ) :
    (v ≤ w → calculateBatteryPercent v ≤ calculateBatteryPercent w) ∧
    0 ≤ calculateBatteryPercent v ∧ calculateBatteryPercent v ≤ 100 ∧
    (v ≤ BATTERY_MIN_VOLTAGE → calculateBatteryPercent v = 0) ∧
    (BATTERY_MAX_VOLTAGE ≤ v → calculateBatteryPercent v = 100) ∧
    (BATTERY_MIN_VOLTAGE < v → v < BATTERY_MAX_VOLTAGE →
      calculateBatteryPercent v =
        ((v - BATTERY_MIN_VOLTAGE) /
          (BATTERY_MAX_VOLTAGE - BATTERY_MIN_VOLTAGE)) * 100) := by
  have hmin : BATTERY_MIN_VOLTAGE = 3 := by norm_num [BATTERY_MIN_VOLTAGE]
  have hmax : BATTERY_MAX_VOLTAGE = 21 / 5 := by norm_num [BATTERY_MAX_VOLTAGE]
  refine ⟨?_, ?_, ?_, ?_, ?_, ?_⟩
  · intro hvw
    rw [calculateBatteryPercent_eq, calculateBatteryPercent_eq, hmin, hmax]
    split_ifs <;> linarith
  · rw [calculateBatteryPercent_eq, hmin, hmax]
    split_ifs <;> linarith
  · rw [calculateBatteryPercent_eq, hmin, hmax]
    split_ifs <;> linarith
  · intro h
    rw [hmin] at h
    rw [calculateBatteryPercent_eq, hmin, hmax]
    split_ifs <;> first | rfl | linarith
  · intro h
    rw [hmax] at h
    rw [calculateBatteryPercent_eq, hmin, hmax]
    split_ifs <;> first | rfl | linarith
  · intro h1 h2
    rw [hmin] at h1
    rw [hmax] at h2
    rw [calculateBatteryPercent_eq, hmin, hmax]
    split_ifs <;> first | linarith | ring

/-- Witness for C8 at concrete voltages: monotone between 3.5 V and 3.8 V,
0 at 3.0 V, 100 at 4.2 V, and the linear value at 3.6 V. -/
theorem claim_C8_witness :
    calculateBatteryPercent 3.5 ≤ calculateBatteryPercent 3.8 ∧
    calculateBatteryPercent 3.0 = 0 ∧
    calculateBatteryPercent 4.2 = 100 ∧
    calculateBatteryPercent 3.6 = ((3.6 - 3.0) / (4.2 - 3.0)) * 100 := by
  refine ⟨(claim_C8 3.5 3.8).1 (by norm_num), ?_, ?_, ?_⟩
  · exact (claim_C8 3.0 0).2.2.2.1 (by norm_num [BATTERY_MIN_VOLTAGE])
  · exact (claim_C8 4.2 0).2.2.2.2.1 (by norm_num [BATTERY_MAX_VOLTAGE])
  · have h := (claim_C8 3.6 0).2.2.2.2.2 (by norm_num [BATTERY_MIN_VOLTAGE])
      (by norm_num [BATTERY_MAX_VOLTAGE])
    rw [h]
    norm_num [BATTERY_MIN_VOLTAGE, BATTERY_MAX_VOLTAGE]

/-- Claim C10: the derived WiFi quality is within `[0, 100]` and monotone
non-decreasing in RSSI; it is 100 for RSSI ≥ −50, 0 for RSSI ≤ −100 or when
disconnected (in which case RSSI is forced to −100), and `2·(RSSI+100)`
in between. -/
theorem claim_C10 (c : Bool) (rssi : ℤ) :
    0 ≤ (updateSystemStatsWifi c rssi).2 ∧
    (updateSystemStatsWifi c rssi).2 ≤ 100 ∧
    (c = false → updateSystemStatsWifi c rssi = (-100, 0)) ∧
    (c = true → -50 ≤ rssi → (updateSystemStatsWifi c rssi).2 = 100) ∧
    (c = true → rssi ≤ -100 → (updateSystemStatsWifi c rssi).2 = 0) ∧
    (c = true → -100 < rssi → rssi < -50 →
      (updateSystemStatsWifi c rssi).2 = 2 * (rssi + 100)) ∧
    (∀ rssi' : ℤ, rssi ≤ rssi' →
      (updateSystemStatsWifi c rssi).2 ≤ (updateSystemStatsWifi c rssi').2) := by
  unfold updateSystemStatsWifi
  refine ⟨?_, ?_, ?_, ?_, ?_, ?_, ?_⟩
  · split_ifs <;> simp <;> omega
  · split_ifs <;> simp <;> omega
  · intro h; simp [h]
  · intro h hr; simp [h]; omega
  · intro h hr; split_ifs <;> simp <;> omega
  · intro h h1 h2; split_ifs <;> simp <;> omega
  · intro rssi' hle
    split_ifs <;> simp <;> omega

/-- Witness for C10: concrete evaluations — monotone between −90 and −60 dBm,
100 at −40 dBm, 0 when disconnected, linear value at −75 dBm. -/
theorem claim_C10_witness :
    (updateSystemStatsWifi true (-90)).2 ≤ (updateSystemStatsWifi true (-60)).2 ∧
    (updateSystemStatsWifi true (-40)).2 = 100 ∧
    updateSystemStatsWifi false (-40) = (-100, 0) ∧
    (updateSystemStatsWifi true (-75)).2 = 2 * (-75 + 100) := by
  refine ⟨(claim_C10 true (-90)).2.2.2.2.2.2 (-60) (by norm_num), ?_, ?_, ?_⟩
  · exact (claim_C10 true (-40)).2.2.2.1 rfl (by norm_num)
  · exact (claim_C10 false (-40)).2.2.1 rfl
  · exact (claim_C10 true (-75)).2.2.2.2.2.1 rfl (by norm_num) (by norm_num)

/-- Helper: once the profile is ultra-low-power, a single health tick leaves
the system state untouched (the downgrade guard requires the profile to
differ from ultra-low-power). -/
lemma updateSystemHealth_ulp_absorb (s : SensorData) (st : SystemState)
    (h : st.currentProfile = PowerProfile.ultraLowPower) :
    (updateSystemHealth s st).2 = st := by
  unfold updateSystemHealth
  split_ifs with hc
  · exact absurd h hc.2
  · rfl

/-- Helper: the ultra-low-power profile is absorbing for any sequence of
health ticks. -/
lemma healthTicks_ulp (snaps : List SensorData) :
    ∀ st : SystemState, st.currentProfile = PowerProfile.ultraLowPower →
      (healthTicks snaps st).currentProfile = PowerProfile.ultraLowPower := by
  induction snaps with
  | nil => intro st h; exact h
  | cons s rest ih =>
    intro st h
    show (healthTicks rest (updateSystemHealth s st).2).currentProfile = _
    rw [updateSystemHealth_ulp_absorb s st h]
    exact ih st h

/-- Counterexample to C3: a snapshot that is healthy except for an invalid
BMP sensor classifies Critical (crossing into Critical from Normal), yet the
health tick leaves the Balanced profile unchanged — the automatic downgrade
is tied to the battery-voltage condition only, not to the Critical state. -/
theorem claim_C3_counterexample :
    updateSystemHealthClassify
      ⟨21, 50, 1013, 20, 3.6, 50, true, true, 30000, 10, -60, 80,
        HealthState.normal⟩ = HealthState.normal ∧
    updateSystemHealthClassify
      ⟨21, 50, 1013, 20, 3.6, 50, true, false, 30000, 10, -60, 80,
        HealthState.normal⟩ = HealthState.critical ∧
    (updateSystemHealth
      ⟨21, 50, 1013, 20, 3.6, 50, true, false, 30000, 10, -60, 80,
        HealthState.normal⟩
      ⟨PowerProfile.balanced, true⟩).2 = ⟨PowerProfile.balanced, true⟩ := by
  refine ⟨?_, ?_, ?_⟩ <;>
    norm_num [updateSystemHealthClassify, updateSystemHealth,
      applyPowerProfile, BATTERY_CRITICAL_VOLTAGE, BATTERY_LOW_VOLTAGE]

/-- Claim C3, amended: the automatic downgrade to ultra-low-power triggers
exactly when battery voltage is below the critical threshold and the profile
is not already ultra-low-power (Critical states caused by sensor invalidity or
low memory do not downgrade); when battery voltage is at or above the
threshold the tick leaves the system state unchanged, and the downgrade is
one-way: no sequence of health ticks ever moves the profile away from
ultra-low-power. -/
theorem claim_C3 (s : SensorData) (st : SystemState)
    (snaps : List SensorData) :
    ((updateSystemHealth s st).2.currentProfile =
      if s.battery_voltage < BATTERY_CRITICAL_VOLTAGE ∧
          st.currentProfile ≠ PowerProfile.ultraLowPower then
        PowerProfile.ultraLowPower
      else st.currentProfile) ∧
    (s.battery_voltage < BATTERY_CRITICAL_VOLTAGE →
      (updateSystemHealth s st).2.currentProfile =
        PowerProfile.ultraLowPower) ∧
    (BATTERY_CRITICAL_VOLTAGE ≤ s.battery_voltage →
      (updateSystemHealth s st).2 = st) ∧
    ((updateSystemHealth s st).1.health = updateSystemHealthClassify s) ∧
    (st.currentProfile = PowerProfile.ultraLowPower →
      (healthTicks snaps st).currentProfile = PowerProfile.ultraLowPower) := by
  refine ⟨?_, ?_, ?_, ?_, healthTicks_ulp snaps st⟩
  · unfold updateSystemHealth applyPowerProfile
    split_ifs <;> rfl
  · intro h
    unfold updateSystemHealth applyPowerProfile
    split_ifs with hc
    · rfl
    · rcases not_and_or.mp hc with h' | h'
      · exact absurd h h'
      · simpa using h'
  · intro h
    unfold updateSystemHealth
    split_ifs with hc
    · exact absurd hc.1 (not_lt.mpr h)
    · rfl
  · unfold updateSystemHealth
    split_ifs <;> rfl

/-- Witness for C3 at concrete inputs: battery at 3.1 V on the Balanced
profile downgrades to ultra-low-power; a later recovered snapshot at 3.6 V
starting from ultra-low-power leaves the profile at ultra-low-power. -/
theorem claim_C3_witness :
    (updateSystemHealth
      ⟨21, 50, 1013, 20, 3.1, 10, true, true, 30000, 10, -60, 80,
        HealthState.normal⟩
      ⟨PowerProfile.balanced, true⟩).2.currentProfile =
      PowerProfile.ultraLowPower ∧
    (healthTicks
      [⟨21, 50, 1013, 20, 3.6, 50, true, true, 30000, 10, -60, 80,
        HealthState.normal⟩]
      ⟨PowerProfile.ultraLowPower, true⟩).currentProfile =
      PowerProfile.ultraLowPower := by
  constructor
  · exact (claim_C3 _ ⟨PowerProfile.balanced, true⟩ []).2.1
      (by norm_num [BATTERY_CRITICAL_VOLTAGE])
  · exact (claim_C3
      ⟨21, 50, 1013, 20, 3.6, 50, true, true, 30000, 10, -60, 80,
        HealthState.normal⟩
      ⟨PowerProfile.ultraLowPower, true⟩ _).2.2.2.2 rfl

/-- Counterexample to C5: with the BMP sensor initialised (`bmp_valid` true),
a NaN temperature reading on tick `k` retains tick `k−1`'s temperature
(21.5 °C) — but the validity flag for the channel stays `true`; `readBMP`
never clears `bmp_valid`, so no flag is false for exactly that tick. -/
theorem claim_C5_counterexample :
    (readBMP
      ⟨21.5, 40, 1013, 20, 3.7, 58, true, true, 30000, 10, -60, 80,
        HealthState.normal⟩ none 101300 (some 20)).temperature = 21.5 ∧
    (readBMP
      ⟨21.5, 40, 1013, 20, 3.7, 58, true, true, 30000, 10, -60, 80,
        HealthState.normal⟩ none 101300 (some 20)).bmp_valid = true := by
  constructor <;> norm_num [readBMP]

/-- Claim C5, amended: for the humidity channel the claim holds — a NaN or
out-of-range reading keeps the retained value and sets `dht_valid` false for
exactly that tick, while a plausible reading stores the value with the flag
true. For the BMP channels (temperature, pressure), a NaN or out-of-range
reading also keeps the retained value, but no validity flag turns false:
`readBMP` leaves `bmp_valid` exactly as it was (it only records
initialisation success). -/
theorem claim_C5 (s : SensorData) (temp alt : Option ℚ) (pa : ℤ)
    (hv t : ℚ) :
    ((readDHT s none).humidity = s.humidity ∧
      (readDHT s none).dht_valid = false) ∧
    (¬ (0 ≤ hv ∧ hv ≤ 100) →
      (readDHT s (some hv)).humidity = s.humidity ∧
      (readDHT s (some hv)).dht_valid = false) ∧
    (0 ≤ hv → hv ≤ 100 →
      readDHT s (some hv) = { s with humidity := hv, dht_valid := true }) ∧
    ((readBMP s none pa alt).temperature = s.temperature) ∧
    (¬ (-40 < t ∧ t < 85) →
      (readBMP s (some t) pa alt).temperature = s.temperature) ∧
    (¬ (0 < pa ∧ 300 < (pa : ℚ) / 100 ∧ (pa : ℚ) / 100 < 1100) →
      (readBMP s temp pa alt).pressure = s.pressure) ∧
    ((readBMP s temp pa alt).bmp_valid = s.bmp_valid) := by
  refine ⟨⟨rfl, rfl⟩, ?_, ?_, ?_, ?_, ?_, ?_⟩
  · intro h
    simp only [readDHT]
    rw [if_neg h]
    exact ⟨rfl, rfl⟩
  · intro h0 h100
    simp only [readDHT]
    rw [if_pos ⟨h0, h100⟩]
  · cases alt <;>
      (unfold readBMP; dsimp only; split_ifs <;> simp_all)
  · intro h
    cases alt <;>
      (unfold readBMP; dsimp only; split_ifs <;> simp_all)
  · intro h
    cases temp <;> cases alt <;>
      (unfold readBMP; dsimp only; split_ifs <;> simp_all)
  · cases temp <;> cases alt <;>
      (unfold readBMP; dsimp only; split_ifs <;> simp_all)

/-- Witness for C5 at concrete inputs: an out-of-range humidity reading (120)
keeps the retained 40 % and clears `dht_valid`; an in-range reading (55)
stores it; an out-of-range temperature (−60) keeps the retained 21.5 °C; an
implausible pressure (0 Pa) keeps the retained 1013 hPa. -/
theorem claim_C5_witness :
    (readDHT
      ⟨21.5, 40, 1013, 20, 3.7, 58, true, true, 30000, 10, -60, 80,
        HealthState.normal⟩ (some 120)).humidity = 40 ∧
    (readDHT
      ⟨21.5, 40, 1013, 20, 3.7, 58, true, true, 30000, 10, -60, 80,
        HealthState.normal⟩ (some 120)).dht_valid = false ∧
    (readDHT
      ⟨21.5, 40, 1013, 20, 3.7, 58, true, true, 30000, 10, -60, 80,
        HealthState.normal⟩ (some 55)).humidity = 55 ∧
    (readBMP
      ⟨21.5, 40, 1013, 20, 3.7, 58, true, true, 30000, 10, -60, 80,
        HealthState.normal⟩ (some (-60)) 101300 none).temperature = 21.5 ∧
    (readBMP
      ⟨21.5, 40, 1013, 20, 3.7, 58, true, true, 30000, 10, -60, 80,
        HealthState.normal⟩ (some 22) 0 none).pressure = 1013 := by
  have h := claim_C5
    ⟨21.5, 40, 1013, 20, 3.7, 58, true, true, 30000, 10, -60, 80,
      HealthState.normal⟩ (some 22) none 0 120 (-60)
  have h2 := claim_C5
    ⟨21.5, 40, 1013, 20, 3.7, 58, true, true, 30000, 10, -60, 80,
      HealthState.normal⟩ (some 22) none 101300 55 (-60)
  refine ⟨?_, ?_, ?_, ?_, ?_⟩
  · exact (h.2.1 (by norm_num)).1
  · exact (h.2.1 (by norm_num)).2
  · rw [h2.2.2.1 (by norm_num) (by norm_num)]
  · exact h2.2.2.2.2.1 (by norm_num)
  · exact h.2.2.2.2.2.1 (by norm_num)

/-- Initial part_000 metrics state for the C4 counterexample: statics
zero-initialised, pressure reading 1000 hPa, humidity sensor invalid (the
metrics block is irrelevant to the trend claim). -/
def c4s0 : AdvMetrics :=
  ⟨20, 20, 50, false, 0, 0, 1000, 0, "", 0, 0⟩

/-- Tick at `t = 0`: initialises the baseline to 1000. -/
noncomputable def c4m1 : AdvMetrics := calculateAdvancedMetrics c4s0 0

/-- One trend interval later the pressure reads 1001: recomputes
rate `+1`, `RISING`. -/
noncomputable def c4m2 : AdvMetrics :=
  calculateAdvancedMetrics { c4m1 with pressure := 1001 } TREND_INTERVAL_MS

/-- A second trend interval later the pressure is still 1001 (change over
this interval is 0). -/
noncomputable def c4m3 : AdvMetrics :=
  calculateAdvancedMetrics c4m2 (2 * TREND_INTERVAL_MS)

/-- Counterexample to C4 (on part_000 `calculateAdvancedMetrics`): pressure
readings 1000, 1001, 1001 at times 0, one interval, two intervals. At the
second recomputation the pressure change over the elapsed interval is
`1001 − 1001 = 0`, so the claim requires rate `0` and `Stable`; the code
reports rate `1` and `RISING`, because `lastPressure` is never refreshed
after its first initialisation — the rate is cumulative since the first
measurement, not the change over the interval. -/
theorem claim_C4_counterexample :
    c4m2.pressure = 1001 ∧ c4m3.pressure = 1001 ∧
    c4m3.lastTrendCheck = 2 * TREND_INTERVAL_MS ∧
    c4m3.lastPressure = 1000 ∧
    c4m3.pressure_rate = 1 ∧ c4m3.weather_trend = "RISING" := by
  have h1 : c4m1 = ⟨20, 20, 50, false, 0, 0, 1000, 0, "STABLE", 1000, 0⟩ := by
    unfold c4m1 c4s0 calculateAdvancedMetrics
    norm_num [TREND_INTERVAL_MS]
  have h2 : c4m2 =
      ⟨20, 20, 50, false, 0, 0, 1001, 1, "RISING", 1000, TREND_INTERVAL_MS⟩ := by
    unfold c4m2
    rw [h1]
    unfold calculateAdvancedMetrics
    norm_num [TREND_INTERVAL_MS]
  have h3 : c4m3 =
      ⟨20, 20, 50, false, 0, 0, 1001, 1, "RISING", 1000,
        2 * TREND_INTERVAL_MS⟩ := by
    unfold c4m3
    rw [h2]
    unfold calculateAdvancedMetrics
    norm_num [TREND_INTERVAL_MS]
  rw [h2, h3]
  norm_num [TREND_INTERVAL_MS]

/-- Claim C4, amended: part_001's `updateWeatherTrend` behaves as claimed —
no recomputation before one trend interval has elapsed; on recomputation the
timestamp and baseline are refreshed, the rate is the pressure change since
the previous recomputation, and the classification is Rising above +0.5,
Falling below −0.5, else Stable; a first-ever measurement only initialises
the baseline and leaves the trend at its Stable default. In part_000's
`calculateAdvancedMetrics`, however, the baseline `lastPressure` is never
refreshed once positive, so on recomputation the rate is the cumulative
change since the first measurement, not the change over the interval. -/
theorem claim_C4 (ts : TrendState) (p : ℚ) (now : Nat) (s : AdvMetrics) :
    (now - ts.lastTrendUpdate < TREND_INTERVAL_MS →
      updateWeatherTrend ts p now = ts) ∧
    (TREND_INTERVAL_MS ≤ now - ts.lastTrendUpdate →
      (updateWeatherTrend ts p now).lastTrendUpdate = now ∧
      (updateWeatherTrend ts p now).lastPressure = p ∧
      (0 < ts.lastPressure →
        (updateWeatherTrend ts p now).pressure_rate = p - ts.lastPressure ∧
        (updateWeatherTrend ts p now).trend =
          (if p - ts.lastPressure > 0.5 then WeatherTrend.rising
           else if p - ts.lastPressure < -0.5 then WeatherTrend.falling
           else WeatherTrend.stable)) ∧
      (ts.lastPressure ≤ 0 →
        (updateWeatherTrend ts p now).trend = ts.trend ∧
        (updateWeatherTrend ts p now).pressure_rate = ts.pressure_rate)) ∧
    ((updateWeatherTrend initTrendState p now).trend = WeatherTrend.stable) ∧
    (0 < s.lastPressure →
      (calculateAdvancedMetrics s now).lastPressure = s.lastPressure) ∧
    (0 < s.lastPressure → TREND_INTERVAL_MS ≤ now - s.lastTrendCheck →
      (calculateAdvancedMetrics s now).pressure_rate =
        s.pressure - s.lastPressure ∧
      (calculateAdvancedMetrics s now).lastTrendCheck = now) ∧
    (now - s.lastTrendCheck < TREND_INTERVAL_MS →
      (calculateAdvancedMetrics s now).pressure_rate = s.pressure_rate) := by
  refine ⟨?_, ?_, ?_, ?_, ?_, ?_⟩
  · intro h
    unfold updateWeatherTrend
    rw [if_neg (by omega)]
  · intro h
    unfold updateWeatherTrend
    rw [if_pos h]
    dsimp only
    refine ⟨rfl, rfl, ?_, ?_⟩
    · intro hp
      rw [if_pos hp]
      exact ⟨rfl, rfl⟩
    · intro hp
      rw [if_neg (not_lt.mpr hp)]
      exact ⟨rfl, rfl⟩
  · unfold updateWeatherTrend initTrendState
    split_ifs <;> simp_all
  · intro hp
    unfold calculateAdvancedMetrics
    dsimp only
    split_ifs <;> simp_all <;> linarith
  · intro hp hnow
    unfold calculateAdvancedMetrics
    dsimp only
    split_ifs <;> simp_all <;> linarith
  · intro h
    unfold calculateAdvancedMetrics
    dsimp only
    split_ifs <;> simp_all <;> omega

/-- Witness for C4 at the spec's concrete inputs: from baseline 1000 hPa one
interval earlier, reading 1001 gives Rising with rate +1, 999 gives Falling
with rate −1, 1000.2 gives Stable; a tick strictly inside the interval
changes nothing. -/
theorem claim_C4_witness :
    (updateWeatherTrend ⟨1000, 0, WeatherTrend.stable, 0⟩ 1001
      TREND_INTERVAL_MS).pressure_rate = 1 ∧
    (updateWeatherTrend ⟨1000, 0, WeatherTrend.stable, 0⟩ 1001
      TREND_INTERVAL_MS).trend = WeatherTrend.rising ∧
    (updateWeatherTrend ⟨1000, 0, WeatherTrend.stable, 0⟩ 999
      TREND_INTERVAL_MS).trend = WeatherTrend.falling ∧
    (updateWeatherTrend ⟨1000, 0, WeatherTrend.stable, 0⟩ 1000.2
      TREND_INTERVAL_MS).trend = WeatherTrend.stable ∧
    updateWeatherTrend ⟨1000, 0, WeatherTrend.stable, 0⟩ 1001 1000 =
      ⟨1000, 0, WeatherTrend.stable, 0⟩ := by
  have hr := (claim_C4 ⟨1000, 0, WeatherTrend.stable, 0⟩ 1001
    TREND_INTERVAL_MS c4s0).2.1 (by norm_num)
  have hf := (claim_C4 ⟨1000, 0, WeatherTrend.stable, 0⟩ 999
    TREND_INTERVAL_MS c4s0).2.1 (by norm_num)
  have hs := (claim_C4 ⟨1000, 0, WeatherTrend.stable, 0⟩ 1000.2
    TREND_INTERVAL_MS c4s0).2.1 (by norm_num)
  have hq := (claim_C4 ⟨1000, 0, WeatherTrend.stable, 0⟩ 1001
    1000 c4s0).1 (by norm_num [TREND_INTERVAL_MS])
  refine ⟨?_, ?_, ?_, ?_, hq⟩
  · exact ((hr.2.2.1 (by norm_num)).1.trans (by norm_num))
  · rw [(hr.2.2.1 (by norm_num)).2]
    norm_num
  · rw [(hf.2.2.1 (by norm_num)).2]
    norm_num
  · rw [(hs.2.2.1 (by norm_num)).2]
    norm_num

/-- Metrics state on a tick with valid humidity: 30 °C, 50 % RH. -/
def c6s0 : AdvMetrics :=
  ⟨30, 30, 50, true, 0, 0, 1000, 0, "STABLE", 1000, 0⟩

/-- Tick `k−1`: computes dew point and heat index from 30 °C / 50 %. -/
noncomputable def c6m1 : AdvMetrics := calculateAdvancedMetrics c6s0 1000

/-- Tick `k`: the DHT read returns NaN, so `dht_valid` flips false, then the
metrics pass runs again. -/
noncomputable def c6m2 : AdvMetrics :=
  calculateAdvancedMetrics (readDHT11 c6m1 none none) 2000

/-- Counterexample to C6: on tick `k` the humidity validity flag is false,
dew point and heat index are indeed not recomputed — but the previously
computed values (from tick `k−1`'s 30 °C / 50 %) remain in the snapshot, and
`handleData` serialises exactly those stale values to consumers on that
tick. -/
theorem claim_C6_counterexample :
    c6m1.dew_point = magnusDewPoint 30 50 ∧
    c6m1.heat_index = rothfuszHeatIndex 30 50 ∧
    c6m2.dht_valid = false ∧
    c6m2.dew_point = magnusDewPoint 30 50 ∧
    c6m2.heat_index = rothfuszHeatIndex 30 50 ∧
    (handleDataDerived c6m2).dew_point = magnusDewPoint 30 50 ∧
    (handleDataDerived c6m2).heat_index = rothfuszHeatIndex 30 50 := by
  have h1 : c6m1 =
      ⟨30, 30, 50, true, magnusDewPoint 30 50, rothfuszHeatIndex 30 50,
        1000, 0, "STABLE", 1000, 0⟩ := by
    unfold c6m1 c6s0 calculateAdvancedMetrics
    norm_num [TREND_INTERVAL_MS]
  have h2 : c6m2 =
      ⟨30, 30, 50, false, magnusDewPoint 30 50, rothfuszHeatIndex 30 50,
        1000, 0, "STABLE", 1000, 0⟩ := by
    unfold c6m2
    rw [h1]
    unfold readDHT11 calculateAdvancedMetrics
    norm_num [TREND_INTERVAL_MS]
  rw [h1, h2]
  exact ⟨rfl, rfl, rfl, rfl, rfl, rfl, rfl⟩

/-- Claim C6, amended: when humidity validity is false for a tick, dew point
and heat index are not recomputed on that tick — but the fields retain the
previously computed values, and `handleData` exposes exactly those retained
(possibly stale) values to consumers; when humidity is valid they are
recomputed by the Magnus formula and the Rothfusz polynomial (identity below
27 °C). -/
theorem claim_C6 (s : AdvMetrics) (now : Nat) :
    (s.dht_valid = false →
      (calculateAdvancedMetrics s now).dew_point = s.dew_point ∧
      (calculateAdvancedMetrics s now).heat_index = s.heat_index ∧
      (handleDataDerived (calculateAdvancedMetrics s now)).dew_point =
        s.dew_point ∧
      (handleDataDerived (calculateAdvancedMetrics s now)).heat_index =
        s.heat_index) ∧
    (s.dht_valid = true →
      (calculateAdvancedMetrics s now).dew_point =
        magnusDewPoint s.temperature s.humidity ∧
      (calculateAdvancedMetrics s now).heat_index =
        (if 27 ≤ s.temperature then
          rothfuszHeatIndex s.temperature s.humidity
         else (s.temperature : ℝ))) := by
  constructor
  · intro h
    simp only [calculateAdvancedMetrics, handleDataDerived]
    split_ifs <;> simp_all
  · intro h
    simp only [calculateAdvancedMetrics, handleDataDerived]
    split_ifs <;> simp_all

/-- Witness for C6 at a concrete state: with `dht_valid` false the previously
stored dew point (7) and heat index (28) survive the tick and are the values
handed to `handleData`; with `dht_valid` true at 30 °C the heat index is the
Rothfusz polynomial. -/
theorem claim_C6_witness :
    (calculateAdvancedMetrics
      ⟨25, 25, 50, false, 7, 28, 1000, 0, "STABLE", 1000, 0⟩ 5000).dew_point
      = 7 ∧
    (handleDataDerived (calculateAdvancedMetrics
      ⟨25, 25, 50, false, 7, 28, 1000, 0, "STABLE", 1000, 0⟩ 5000)).heat_index
      = 28 ∧
    (calculateAdvancedMetrics
      ⟨30, 30, 50, true, 7, 28, 1000, 0, "STABLE", 1000, 0⟩ 5000).heat_index
      = rothfuszHeatIndex 30 50 := by
  have h1 := (claim_C6
    ⟨25, 25, 50, false, 7, 28, 1000, 0, "STABLE", 1000, 0⟩ 5000).1 rfl
  have h2 := (claim_C6
    ⟨30, 30, 50, true, 7, 28, 1000, 0, "STABLE", 1000, 0⟩ 5000).2 rfl
  refine ⟨h1.1, h1.2.2.2, ?_⟩
  rw [h2.2]
  norm_num

/-- Counterexample to C9: two externally requested profile values outside the
recognized set that are not rejected. part_000 stores the unrecognised
profile string `Garbage` into the current state and answers success (200);
part_001 receives `value:10` (outside `0..2`), misparses the one-character
substring as `1`, switches the profile from Performance to Balanced and
answers success — in both cases state changes and no error is reported. -/
theorem claim_C9_counterexample :
    handleSetProfile ⟨"Balanced", 2000, true⟩ (some "Garbage") =
      (⟨"Garbage", 2000, true⟩, 200, "Profile set to: Garbage") ∧
    handleControl ⟨PowerProfile.performance, true⟩
      (some "\x7b\"action\":\"profile\",\"value\":10\x7d") =
      (⟨PowerProfile.balanced, true⟩, 200, "Profile changed") := by
  constructor
  · decide
  · decide

/-- Claim C9, amended: a missing body and a body with no recognised action
are rejected with an error and unchanged state; a profile command whose
one-character-parsed value falls outside `0..2` is likewise rejected with an
error and unchanged state — but a value whose first character misparses
(e.g. `10`, read as `1`) can be accepted. part_000's `handleSetProfile` does
not reject unrecognised profile values at all: the value is stored as the
current profile name with a success response, and only `refreshRate` and the
display toggle are left unchanged. -/
theorem claim_C9 (st : SystemState) (st0 : SystemState000) (b p : String)
    (vp : Nat) :
    (handleControl st none = (st, 400, "Bad Request")) ∧
    ((indexOfChars ("\"action\":\"profile\"".data) b.data).isSome = true →
      indexOfChars ("\"value\":".data) b.data = some vp →
      ¬ (0 ≤ valueCharToInt b.data (vp + 8) ∧
          valueCharToInt b.data (vp + 8) ≤ 2) →
      handleControl st (some b) = (st, 400, "Unknown action")) ∧
    ((indexOfChars ("\"action\":\"profile\"".data) b.data).isSome = false →
      (indexOfChars ("\"action\":\"oled_toggle\"".data) b.data).isSome = false →
      handleControl st (some b) = (st, 400, "Unknown action")) ∧
    (p ≠ "Performance" → p ≠ "Balanced" → p ≠ "Ultra Low Power" →
      handleSetProfile st0 (some p) =
        ({ st0 with currentProfile := p }, 200, "Profile set to: " ++ p)) := by
  refine ⟨rfl, ?_, ?_, ?_⟩
  · intro h1 h2 h3
    simp only [handleControl, h1, h2, if_true]
    rw [if_neg h3]
  · intro h1 h2
    simp only [handleControl, h1, h2, Bool.false_eq_true, if_false]
  · intro h1 h2 h3
    simp only [handleSetProfile]
    rw [if_neg h1, if_neg h2, if_neg h3]

/-- Witness for C9 at concrete inputs: a profile command with digit value 5
is rejected with status 400 and unchanged state; a body with an unknown
action is rejected; a missing body is rejected; part_000 accepts the
unrecognised profile name `Turbo`, storing it with status 200. -/
theorem claim_C9_witness :
    handleControl ⟨PowerProfile.balanced, true⟩
      (some "\x7b\"action\":\"profile\",\"value\":5\x7d") =
      (⟨PowerProfile.balanced, true⟩, 400, "Unknown action") ∧
    handleControl ⟨PowerProfile.balanced, true⟩
      (some "\x7b\"action\":\"nope\"\x7d") =
      (⟨PowerProfile.balanced, true⟩, 400, "Unknown action") ∧
    handleControl ⟨PowerProfile.balanced, true⟩ none =
      (⟨PowerProfile.balanced, true⟩, 400, "Bad Request") ∧
    handleSetProfile ⟨"Balanced", 2000, true⟩ (some "Turbo") =
      (⟨"Turbo", 2000, true⟩, 200, "Profile set to: Turbo") := by
  refine ⟨?_, ?_, ?_, ?_⟩
  · exact (claim_C9 ⟨PowerProfile.balanced, true⟩ ⟨"Balanced", 2000, true⟩
      "\x7b\"action\":\"profile\",\"value\":5\x7d" "Turbo" 20).2.1
      (by decide) (by decide) (by decide)
  · exact (claim_C9 ⟨PowerProfile.balanced, true⟩ ⟨"Balanced", 2000, true⟩
      "\x7b\"action\":\"nope\"\x7d" "Turbo" 0).2.2.1 (by decide) (by decide)
  · exact (claim_C9 ⟨PowerProfile.balanced, true⟩ ⟨"Balanced", 2000, true⟩
      "x" "Turbo" 0).1
  · exact (claim_C9 ⟨PowerProfile.balanced, true⟩ ⟨"Balanced", 2000, true⟩
      "x" "Turbo" 0).2.2.2 (by decide) (by decide) (by decide)

/-- 61 samples with distinct temperatures 0, 1, …, 60. -/
def c1vs : List (ℚ × ℚ × ℚ) := (List.range 61).map (fun i => ((i : ℚ), 0, 0))

set_option maxRecDepth 100000 in
/-- Counterexample to C1: after 61 appended samples the buffer is full with
cursor 1; the snapshot `handleHistory` returns is the raw array
`[60, 1, 2, …, 59]` (the newest sample sits at index 0), not the
oldest-first sequence `[1, 2, …, 60]` that reading from the cursor onward
(`specSnapshotOldestFirst`, modelled from the spec) would produce. -/
theorem claim_C1_counterexample :
    channelSnapshot (appendAll c1vs) (appendAll c1vs).temperature ≠
      specSnapshotOldestFirst (appendAll c1vs)
        (appendAll c1vs).temperature := by
  decide

/-- Claim C1, amended: the snapshot length never exceeds `HISTORY_SIZE`;
while not full the snapshot is the appended prefix in insertion order
(oldest-first), as claimed; once full, however, the snapshot is the raw
buffer in index order `[0, HISTORY_SIZE)` — a rotation of the chronological
order: rotating the returned snapshot by the cursor (which `handleHistory`
does not do) recovers the last `HISTORY_SIZE` samples oldest-first. -/
theorem claim_C1 (vs : List (ℚ × ℚ × ℚ)) :
    (channelSnapshot (appendAll vs) (appendAll vs).temperature).length ≤
      HISTORY_SIZE ∧
    (vs.length < HISTORY_SIZE →
      channelSnapshot (appendAll vs) (appendAll vs).temperature =
        vs.map (fun v => v.1) ∧
      channelSnapshot (appendAll vs) (appendAll vs).pressure =
        vs.map (fun v => v.2.1) ∧
      channelSnapshot (appendAll vs) (appendAll vs).battery =
        vs.map (fun v => v.2.2)) ∧
    (HISTORY_SIZE ≤ vs.length →
      channelSnapshot (appendAll vs) (appendAll vs).temperature =
        (appendAll vs).temperature ∧
      (channelSnapshot (appendAll vs) (appendAll vs).temperature).rotate
          (appendAll vs).index =
        (vs.map (fun v => v.1)).drop (vs.length - HISTORY_SIZE) ∧
      (channelSnapshot (appendAll vs) (appendAll vs).pressure).rotate
          (appendAll vs).index =
        (vs.map (fun v => v.2.1)).drop (vs.length - HISTORY_SIZE) ∧
      (channelSnapshot (appendAll vs) (appendAll vs).battery).rotate
          (appendAll vs).index =
        (vs.map (fun v => v.2.2)).drop (vs.length - HISTORY_SIZE)) := by
  obtain ⟨hlt, hlp, hlb, hidx, hfull, hpre, hrot⟩ := appendAll_char vs
  have hH : HISTORY_SIZE = 60 := rfl
  refine ⟨?_, ?_, ?_⟩
  · simp only [channelSnapshot, List.length_map, List.length_range]
    unfold historyCount
    split_ifs
    · exact le_refl _
    · rw [hidx, hH]
      omega
  · intro hlen
    have hnf : (appendAll vs).full = false := by
      cases hb : (appendAll vs).full
      · rfl
      · exact absurd (hfull.mp hb) (by omega)
    have hcount : historyCount (appendAll vs) = vs.length := by
      unfold historyCount
      rw [hnf]
      simp only [Bool.false_eq_true, if_false]
      rw [hidx, Nat.mod_eq_of_lt (by omega)]
    obtain ⟨hp1, hp2, hp3⟩ := hpre (by omega)
    refine ⟨?_, ?_, ?_⟩
    · unfold channelSnapshot
      rw [hcount, getD_map_range_eq_take _ _ (by rw [hlt]; omega), hp1]
      exact List.take_left' (by simp)
    · unfold channelSnapshot
      rw [hcount, getD_map_range_eq_take _ _ (by rw [hlp]; omega), hp2]
      exact List.take_left' (by simp)
    · unfold channelSnapshot
      rw [hcount, getD_map_range_eq_take _ _ (by rw [hlb]; omega), hp3]
      exact List.take_left' (by simp)
  · intro hlen
    have hf : (appendAll vs).full = true := hfull.mpr (by omega)
    have hcount : historyCount (appendAll vs) = HISTORY_SIZE := by
      simp [historyCount, hf]
    have hsnapT : channelSnapshot (appendAll vs) (appendAll vs).temperature =
        (appendAll vs).temperature := by
      unfold channelSnapshot
      rw [hcount, getD_map_range_eq_take _ _ hlt.ge]
      exact List.take_of_length_le hlt.le
    have hsnapP : channelSnapshot (appendAll vs) (appendAll vs).pressure =
        (appendAll vs).pressure := by
      unfold channelSnapshot
      rw [hcount, getD_map_range_eq_take _ _ hlp.ge]
      exact List.take_of_length_le hlp.le
    have hsnapB : channelSnapshot (appendAll vs) (appendAll vs).battery =
        (appendAll vs).battery := by
      unfold channelSnapshot
      rw [hcount, getD_map_range_eq_take _ _ hlb.ge]
      exact List.take_of_length_le hlb.le
    obtain ⟨hr1, hr2, hr3⟩ := hrot (by omega)
    exact ⟨hsnapT, by rw [hsnapT]; exact hr1, by rw [hsnapP]; exact hr2,
      by rw [hsnapB]; exact hr3⟩

/-- Witness for C1 at concrete inputs: after two appended samples the
snapshot is the insertion-order prefix `[1, 4]`; after 61 zero samples the
full snapshot rotated by the cursor is the last 60 samples. -/
theorem claim_C1_witness :
    channelSnapshot (appendAll [((1 : ℚ), 2, 3), (4, 5, 6)])
        (appendAll [((1 : ℚ), 2, 3), (4, 5, 6)]).temperature = [1, 4] ∧
    (channelSnapshot (appendAll (List.replicate 61 ((0 : ℚ), 0, 0)))
        (appendAll (List.replicate 61 ((0 : ℚ), 0, 0))).temperature).rotate
        (appendAll (List.replicate 61 ((0 : ℚ), 0, 0))).index =
      List.replicate 60 (0 : ℚ) := by
  constructor
  · have h := (claim_C1 [((1 : ℚ), 2, 3), (4, 5, 6)]).2.1
      (by norm_num [HISTORY_SIZE])
    rw [h.1]
    norm_num
  · have h := (claim_C1 (List.replicate 61 ((0 : ℚ), 0, 0))).2.2
      (by simp [HISTORY_SIZE])
    rw [h.2.1]
    simp [HISTORY_SIZE]

/-- Claim C7: appending more than `HISTORY_SIZE` samples makes `full` true
(it holds exactly when at least `HISTORY_SIZE` samples were appended) and
`full` never reverts under further appends; once full every snapshot has
length exactly `HISTORY_SIZE`; and the cursor always stays in
`[0, HISTORY_SIZE)`, advancing modulo the capacity on every append. -/
theorem claim_C7 (vs ws : List (ℚ × ℚ × ℚ)) (t p q : ℚ) :
    ((appendAll vs).full = true ↔ HISTORY_SIZE ≤ vs.length) ∧
    ((appendAll vs).full = true → (appendAll (vs ++ ws)).full = true) ∧
    ((appendAll vs).full = true →
      (channelSnapshot (appendAll vs) (appendAll vs).temperature).length =
        HISTORY_SIZE) ∧
    (appendAll vs).index < HISTORY_SIZE ∧
    (updateHistory (appendAll vs) t p q).index =
      ((appendAll vs).index + 1) % HISTORY_SIZE := by
  obtain ⟨hlt, _, _, hidx, hfull, _, _⟩ := appendAll_char vs
  obtain ⟨_, _, _, _, hfull2, _, _⟩ := appendAll_char (vs ++ ws)
  have hH : HISTORY_SIZE = 60 := rfl
  have hidxlt : (appendAll vs).index < HISTORY_SIZE := by
    rw [hidx, hH]
    omega
  refine ⟨hfull, ?_, ?_, hidxlt, ?_⟩
  · intro hf
    refine hfull2.mpr ?_
    have := hfull.mp hf
    simp only [List.length_append]
    omega
  · intro hf
    have hcount : historyCount (appendAll vs) = HISTORY_SIZE := by
      simp [historyCount, hf]
    simp [channelSnapshot, hcount]
  · exact (updateHistory_fields _ t p q hidxlt).2.2.2.1

/-- Witness for C7 at concrete inputs: 61 appended samples (and one more
batch) leave `full` true; the full snapshot has length 60; after a single
append the cursor is 1 and the next append moves it to `(1 + 1) % 60`. -/
theorem claim_C7_witness :
    (appendAll (List.replicate 61 ((1 : ℚ), 1, 1) ++ [((5 : ℚ), 5, 5)])).full
      = true ∧
    (channelSnapshot (appendAll (List.replicate 61 ((1 : ℚ), 1, 1)))
      (appendAll (List.replicate 61 ((1 : ℚ), 1, 1))).temperature).length
      = 60 ∧
    (appendAll [((2 : ℚ), 2, 2)]).index < 60 ∧
    (updateHistory (appendAll [((2 : ℚ), 2, 2)]) 3 3 3).index =
      ((appendAll [((2 : ℚ), 2, 2)]).index + 1) % 60 := by
  have hf : (appendAll (List.replicate 61 ((1 : ℚ), 1, 1))).full = true :=
    (claim_C7 (List.replicate 61 ((1 : ℚ), 1, 1)) [] 0 0 0).1.mpr
      (by simp [HISTORY_SIZE])
  refine ⟨?_, ?_, ?_, ?_⟩
  · exact (claim_C7 (List.replicate 61 ((1 : ℚ), 1, 1)) [((5 : ℚ), 5, 5)]
      0 0 0).2.1 hf
  · exact (claim_C7 (List.replicate 61 ((1 : ℚ), 1, 1)) [] 0 0 0).2.2.1 hf
  · exact (claim_C7 [((2 : ℚ), 2, 2)] [] 0 0 0).2.2.2.1
  · exact (claim_C7 [((2 : ℚ), 2, 2)] [] 3 3 3).2.2.2.2

end EnvMonitor
